import Mathlib

/-!
Shallow embedding of the real-time relay core of the Chatify repository
(src/backend/socket/socketHandler.js together with the constants of
src/shared/types.js), and proofs of the specification claims about it.

Timestamps are modelled as natural numbers, identifiers as strings.
JavaScript `Map`s are modelled as insertion-ordered association lists with
upsert semantics (`Map.set` replaces in place), and socket.io rooms as an
association list from room id to the list of member socket ids
(`socket.join` is an idempotent insertion).
-/

namespace Chatify

/-- An entry of a message's `readBy` array: `{ user, readAt }`. -/
structure ReadEntry where
  user : String
  readAt : Nat
deriving DecidableEq, Repr

/-- A persisted message document (src/backend/socket/socketHandler.js lines 90-99). -/
structure Message where
  id : String
  chat : String
  sender : String
  content : String
  messageType : String
  readBy : List ReadEntry
deriving DecidableEq, Repr

/-- A persisted chat document: the fields the socket handler reads and writes. -/
structure Chat where
  id : String
  participants : List String
  lastMessage : Option String
  lastActivity : Nat
deriving DecidableEq, Repr

/-- Outbound frame payloads emitted by the socket handler. -/
inductive Frame where
  | userOnline (userId : String)
  | userOffline (userId : String) (lastSeen : Nat)
  | newMessage (msg : Message)
  | userTyping (userId : String) (isTyping : Bool)
  | messageRead (messageId userId : String) (readAt : Nat)
  | errorFrame (message : String)
deriving DecidableEq, Repr

/-- One emit call, recording which socket.io addressing primitive was used:
`socket.emit` (to one socket), `io.to(room).emit` (to every member of the room),
`socket.to(room).emit` (to every member of the room except the sending socket),
and `socket.broadcast.emit` (to every connected socket except the sending one). -/
inductive OutEvent where
  | toSocket (socketId : String) (f : Frame)
  | toRoom (chatId : String) (f : Frame)
  | toRoomExceptSender (chatId socketId : String) (f : Frame)
  | broadcastExceptSender (socketId : String) (f : Frame)
deriving DecidableEq, Repr

/-- Upsert into an insertion-ordered association list: the semantics of
JavaScript `Map.set` (replace in place if the key exists, append otherwise). -/
def mapSet {α : Type} : List (String × α) → String → α → List (String × α)
  | [], k, v => [(k, v)]
  | p :: rest, k, v => if p.1 == k then (k, v) :: rest else p :: mapSet rest k v

/-- JavaScript `Map.delete`: drop every pair with the given key. -/
def mapDelete {α : Type} (m : List (String × α)) (k : String) : List (String × α) :=
  m.filter (fun p => p.1 != k)

/-- The member list of a socket.io room (empty if the room is unknown). -/
def roomMembers (rooms : List (String × List String)) (chatId : String) : List String :=
  match rooms.find? (fun p => p.1 == chatId) with
  | some p => p.2
  | none => []

/-- socket.io `socket.join(chatId)`: add the socket to the room, creating the
room if needed; joining a room the socket is already in is a no-op. -/
def roomJoin : List (String × List String) → String → String → List (String × List String)
  | [], chatId, sid => [(chatId, [sid])]
  | p :: rest, chatId, sid =>
    if p.1 == chatId then
      (p.1, if p.2.contains sid then p.2 else p.2 ++ [sid]) :: rest
    else
      p :: roomJoin rest chatId sid

/-- socket.io `socket.leave(chatId)`: remove the socket from the room. -/
def roomLeave (rooms : List (String × List String)) (chatId sid : String) :
    List (String × List String) :=
  rooms.map (fun p => if p.1 == chatId then (p.1, p.2.filter (fun s => s != sid)) else p)

/-- The whole server state the socket handler touches: the module-level
`activeUsers` map (userId to socketId -- note it holds at most one socket per
user), the set of live sockets with their owning user, the socket.io room
membership, and the storage collaborator's chat and message collections. -/
structure ServerState where
  activeUsers : List (String × String)
  conns : List (String × String)
  rooms : List (String × List String)
  chats : List Chat
  messages : List Message
deriving DecidableEq, Repr

/-- Resolve the concrete recipient socket set of one emit call, given the
current server state (socket.io's delivery semantics for each primitive). -/
def deliverTo (st : ServerState) : OutEvent → List String
  | .toSocket sid _ => [sid]
  | .toRoom cid _ => roomMembers st.rooms cid
  | .toRoomExceptSender cid sid _ => (roomMembers st.rooms cid).filter (fun s => s != sid)
  | .broadcastExceptSender sid _ => (st.conns.map (fun p => p.1)).filter (fun s => s != sid)

/-- The user that owns a given live socket. -/
def ownerOf (st : ServerState) (sid : String) : Option String :=
  (st.conns.find? (fun p => p.1 == sid)).map (fun p => p.2)

/-- Connection handler body (socketHandler.js lines 35-60): record the socket
in `activeUsers` (overwriting any previous socket of the same user), auto-join
every chat the user participates in, and broadcast `userOnline` to every other
connected socket. The broadcast is unconditional: it happens on every
connection, whether or not the user already had a live connection. -/
def onConnect (st : ServerState) (userId socketId : String) : ServerState × List OutEvent :=
  ({ st with
      activeUsers := mapSet st.activeUsers userId socketId,
      conns := mapSet st.conns socketId userId,
      rooms := (st.chats.filter (fun c => c.participants.contains userId)).foldl
        (fun r c => roomJoin r c.id socketId) st.rooms },
   [.broadcastExceptSender socketId (.userOnline userId)])

/-- Disconnect handler (socketHandler.js lines 162-180): delete the user's
`activeUsers` entry and broadcast `userOffline` to every other connected
socket -- again unconditionally, even if the user has another live socket.
socket.io itself removes the closed socket from every room. -/
def onDisconnect (st : ServerState) (userId socketId : String) (now : Nat) :
    ServerState × List OutEvent :=
  ({ st with
      activeUsers := mapDelete st.activeUsers userId,
      conns := st.conns.filter (fun p => p.1 != socketId),
      rooms := st.rooms.map (fun p => (p.1, p.2.filter (fun s => s != socketId))) },
   [.broadcastExceptSender socketId (.userOffline userId now)])

/-- joinChat handler (socketHandler.js lines 63-66): `socket.join(chatId)` and
a log line -- nothing else, in particular no check that the socket's user is a
participant of the chat. -/
def joinChat (st : ServerState) (socketId chatId : String) : ServerState :=
  { st with rooms := roomJoin st.rooms chatId socketId }

/-- leaveChat handler (socketHandler.js lines 69-72). -/
def leaveChat (st : ServerState) (socketId chatId : String) : ServerState :=
  { st with rooms := roomLeave st.rooms chatId socketId }

/-- VALIDATION_RULES.MESSAGE.MAX_LENGTH from src/shared/types.js. -/
def maxMessageLength : Nat := 1000

/-- MESSAGE_TYPES from src/shared/types.js: the recognized message kinds. -/
def messageTypes : List String := ["text", "image", "file"]

/-- Modelled from the spec: the Message schema (src/backend/models/Message.js,
absent from src) validates a document at save time -- the spec's Message Relay
step 1 rejects when `content` is empty or exceeds the maximum length, or
`type` is not a recognized kind; the bounds come from VALIDATION_RULES and
MESSAGE_TYPES in src/shared/types.js. -/
def validMessage (content messageType : String) : Bool :=
  decide (0 < content.length) && decide (content.length ≤ maxMessageLength) &&
    messageTypes.contains messageType

/-- The message document built by the sendMessage handler (lines 91-97). The
handler passes `readBy: [{ user: socket.userId }]`; the `readAt` timestamp of
that entry is modelled from the spec: the schema (absent from src) stamps it
with the save time, giving `readBy = [{sender, now}]`. -/
def newMessageDoc (chatId userId content messageType : String) (now : Nat)
    (newId : String) : Message :=
  { id := newId, chat := chatId, sender := userId, content := content,
    messageType := messageType, readBy := [⟨userId, now⟩] }

/-- sendMessage handler (socketHandler.js lines 75-126). Looks up a chat with
the given id having the sender among its participants; if none, emits an
`error` frame `Chat not found` to the sender only and stops. Otherwise the
message is saved (validation modelled from the spec via `validMessage`; a save
failure is caught and surfaces as an `error` frame `Failed to send message` to
the sender only), the chat's lastMessage and lastActivity are updated, and the
message is broadcast to the whole room with `io.to(chatId)`. -/
def sendMessage (st : ServerState) (socketId userId chatId content messageType : String)
    (now : Nat) (newId : String) : ServerState × List OutEvent :=
  match st.chats.find? (fun c => c.id == chatId && c.participants.contains userId) with
  | none => (st, [.toSocket socketId (.errorFrame "Chat not found")])
  | some _ =>
    if validMessage content messageType then
      ({ st with
          messages := st.messages ++ [newMessageDoc chatId userId content messageType now newId],
          chats := st.chats.map (fun c =>
            if c.id == chatId then
              { c with lastMessage := some newId, lastActivity := now }
            else c) },
       [.toRoom chatId (.newMessage (newMessageDoc chatId userId content messageType now newId))])
    else
      (st, [.toSocket socketId (.errorFrame "Failed to send message")])

/-- typing handler (socketHandler.js lines 129-136): relay the frame to the
room excluding the sending socket. The server keeps no typing state and sets
no timer. -/
def typingHandler (st : ServerState) (socketId userId chatId : String) (isTyping : Bool) :
    ServerState × List OutEvent :=
  (st, [.toRoomExceptSender chatId socketId (.userTyping userId isTyping)])

/-- MongoDB `$addToSet` on the readBy array (socketHandler.js lines 143-147):
the element is appended unless an element equal to the WHOLE `{user, readAt}`
document is already present; equality of the user alone does not suppress the
append. -/
def addToSetReadBy (readBy : List ReadEntry) (e : ReadEntry) : List ReadEntry :=
  if readBy.contains e then readBy else readBy ++ [e]

/-- markAsRead handler (socketHandler.js lines 139-159):
`Message.findByIdAndUpdate` applies `$addToSet` to the matching message's
readBy (a no-op when no message has the given id -- `findByIdAndUpdate` does
not throw on a missing document), then unconditionally emits `messageRead` to
the room excluding the invoking socket. -/
def markAsRead (st : ServerState) (socketId userId messageId chatId : String) (now : Nat) :
    ServerState × List OutEvent :=
  ({ st with
      messages := st.messages.map (fun m =>
        if m.id == messageId then
          { m with readBy := addToSetReadBy m.readBy ⟨userId, now⟩ }
        else m) },
   [.toRoomExceptSender chatId socketId (.messageRead messageId userId now)])

/-- A connection-lifecycle event of one user's socket. -/
inductive ConnEvent where
  | connect (userId socketId : String)
  | disconnect (userId socketId : String) (now : Nat)
deriving DecidableEq, Repr

/-- Dispatch one connection-lifecycle event to the corresponding handler. -/
def presenceStep (st : ServerState) : ConnEvent → ServerState × List OutEvent
  | .connect u s => onConnect st u s
  | .disconnect u s now => onDisconnect st u s now

/-- Run a whole sequence of connect/disconnect events, collecting every frame
the server emits along the way. -/
def runPresence : ServerState → List ConnEvent → ServerState × List OutEvent
  | st, [] => (st, [])
  | st, e :: es =>
    ((runPresence (presenceStep st e).1 es).1,
     (presenceStep st e).2 ++ (runPresence (presenceStep st e).1 es).2)

/-- Whether an emitted event carries a `userOnline` frame. -/
def isOnlineEvent : OutEvent → Bool
  | .broadcastExceptSender _ (.userOnline _) => true
  | _ => false

/-- Whether an emitted event carries a `userOffline` frame. -/
def isOfflineEvent : OutEvent → Bool
  | .broadcastExceptSender _ (.userOffline _ _) => true
  | _ => false

/-- Number of `userOnline` frames in an output trace. -/
def countOnline (outs : List OutEvent) : Nat := (outs.filter isOnlineEvent).length

/-- Number of `userOffline` frames in an output trace. -/
def countOffline (outs : List OutEvent) : Nat := (outs.filter isOfflineEvent).length

/-- Whether a connection-lifecycle event is a connect. -/
def isConnectEv : ConnEvent → Bool
  | .connect _ _ => true
  | .disconnect _ _ _ => false

/-- A stimulus of the typing subsystem: either an inbound `typing` frame from
a client socket, or the passage of an amount of wall-clock time. -/
inductive TypingEvent where
  | frame (socketId userId chatId : String) (isTyping : Bool)
  | elapse (ms : Nat)
deriving DecidableEq, Repr

/-- Server reaction to one typing stimulus. The typing handler is the only
code the server runs for this subsystem; socketHandler.js registers no timer
(no setTimeout or interval appears anywhere in it), so the passage of time
triggers nothing: state is unchanged and no frame is emitted. -/
def typingStep (st : ServerState) : TypingEvent → ServerState × List OutEvent
  | .frame sid uid cid b => typingHandler st sid uid cid b
  | .elapse _ => (st, [])

/-- Run a whole sequence of typing stimuli, collecting the emitted frames. -/
def runTyping : ServerState → List TypingEvent → ServerState × List OutEvent
  | st, [] => (st, [])
  | st, e :: es =>
    ((runTyping (typingStep st e).1 es).1,
     (typingStep st e).2 ++ (runTyping (typingStep st e).1 es).2)

/-- Whether an emitted event carries a `userTyping` frame with isTyping =
false (a negative typing broadcast). -/
def isTypingFalseEvent : OutEvent → Bool
  | .toRoomExceptSender _ _ (.userTyping _ b) => !b
  | _ => false

/-- Number of negative (isTyping = false) `userTyping` broadcasts in a trace. -/
def countTypingFalse (outs : List OutEvent) : Nat :=
  (outs.filter isTypingFalseEvent).length

/-- Whether a typing stimulus is an explicit inbound isTyping = false frame. -/
def isFalseFrame : TypingEvent → Bool
  | .frame _ _ _ b => !b
  | .elapse _ => false

/-- Whether a connection-lifecycle event is a disconnect. -/
def isDisconnectEv : ConnEvent → Bool
  | .connect _ _ => false
  | .disconnect _ _ _ => true

/-- A fixture chat with id "c" between users "u" and "v". -/
def chatC : Chat :=
  { id := "c", participants := ["u", "v"], lastMessage := none, lastActivity := 0 }

/-- A fixture state: user "u" owns live sockets "a" and "b", user "v" owns
socket "d", all three sockets are in room "c", the storage holds the single
chat `chatC` and no messages. -/
def stBase : ServerState :=
  { activeUsers := [("u", "b"), ("v", "d")],
    conns := [("a", "u"), ("b", "u"), ("d", "v")],
    rooms := [("c", ["a", "b", "d"])],
    chats := [chatC],
    messages := [] }

/-- The empty server state. -/
def stEmpty : ServerState :=
  { activeUsers := [], conns := [], rooms := [], chats := [], messages := [] }

theorem countOnline_append (a b : List OutEvent) :
    countOnline (a ++ b) = countOnline a + countOnline b := by
  simp [countOnline, List.filter_append]

theorem countOffline_append (a b : List OutEvent) :
    countOffline (a ++ b) = countOffline a + countOffline b := by
  simp [countOffline, List.filter_append]

theorem countOnline_presenceStep (st : ServerState) (e : ConnEvent) :
    countOnline (presenceStep st e).2 = if isConnectEv e then 1 else 0 := by
  cases e <;>
    simp [presenceStep, onConnect, onDisconnect, countOnline, isOnlineEvent, isConnectEv]

theorem countOffline_presenceStep (st : ServerState) (e : ConnEvent) :
    countOffline (presenceStep st e).2 = if isDisconnectEv e then 1 else 0 := by
  cases e <;>
    simp [presenceStep, onConnect, onDisconnect, countOffline, isOfflineEvent, isDisconnectEv]

/-- C1 counterexample: a user with two simultaneous connections generates TWO
`userOnline` events (one per connection), not one, and two `userOffline`
events (the first of which fires while the second connection is still live):
the presence broadcasts of socketHandler.js are per-connection, not
edge-triggered. -/
theorem presence_not_edge_triggered :
    countOnline (runPresence stEmpty
      [ConnEvent.connect "u" "a", ConnEvent.connect "u" "b",
       ConnEvent.disconnect "u" "a" 10, ConnEvent.disconnect "u" "b" 11]).2 = 2 ∧
    countOffline (runPresence stEmpty
      [ConnEvent.connect "u" "a", ConnEvent.connect "u" "b",
       ConnEvent.disconnect "u" "a" 10, ConnEvent.disconnect "u" "b" 11]).2 = 2 ∧
    ¬ countOnline (runPresence stEmpty
      [ConnEvent.connect "u" "a", ConnEvent.connect "u" "b",
       ConnEvent.disconnect "u" "a" 10, ConnEvent.disconnect "u" "b" 11]).2 = 1 := by
  refine ⟨by decide, by decide, by decide⟩

/-- C1 amended: the presence registry of socketHandler.js is level- (per
connection), not edge-triggered: over every sequence of connect and
disconnect events, exactly one `userOnline` frame is broadcast per connect
and exactly one `userOffline` frame per disconnect, so a user with two
simultaneous connections generates two online events and two offline events. -/
theorem presence_events_per_connection (evs : List ConnEvent) : ∀ st : ServerState,
    countOnline (runPresence st evs).2 = (evs.filter isConnectEv).length ∧
    countOffline (runPresence st evs).2 = (evs.filter isDisconnectEv).length := by
  induction evs with
  | nil => intro st; simp [runPresence, countOnline, countOffline]
  | cons e rest ih =>
    intro st
    obtain ⟨ih1, ih2⟩ := ih (presenceStep st e).1
    constructor
    · simp only [runPresence, countOnline_append, ih1, countOnline_presenceStep,
        List.filter_cons]
      cases e <;> simp [isConnectEv, Nat.add_comm]
    · simp only [runPresence, countOffline_append, ih2, countOffline_presenceStep,
        List.filter_cons]
      cases e <;> simp [isDisconnectEv, Nat.add_comm]

/-- A fixture message "m" in chat "c" sent by "v", with an empty readBy. -/
def msgM : Message :=
  { id := "m", chat := "c", sender := "v", content := "hi",
    messageType := "text", readBy := [] }

/-- The fixture state `stBase` with the single stored message `msgM`. -/
def stWithMsg : ServerState := { stBase with messages := [msgM] }

/-- C2: marking the same message read twice by the same user at two different
timestamps leaves TWO `{user, readAt}` entries for that user, and the second
invocation does change state: `$addToSet` compares the whole `{user, readAt}`
document, so a fresh `readAt` defeats the intended per-user deduplication. -/
theorem markRead_twice_adds_two_entries :
    ((markAsRead (markAsRead stWithMsg "a" "u" "m" "c" 0).1 "a" "u" "m" "c" 1).1.messages.map
      (fun m => m.readBy)) = [[⟨"u", 0⟩, ⟨"u", 1⟩]] ∧
    ¬ (markAsRead (markAsRead stWithMsg "a" "u" "m" "c" 0).1 "a" "u" "m" "c" 1).1 =
      (markAsRead stWithMsg "a" "u" "m" "c" 0).1 := by
  refine ⟨by decide, by decide⟩

theorem countTypingFalse_append (a b : List OutEvent) :
    countTypingFalse (a ++ b) = countTypingFalse a + countTypingFalse b := by
  simp [countTypingFalse, List.filter_append]

theorem countTypingFalse_typingStep (st : ServerState) (e : TypingEvent) :
    countTypingFalse (typingStep st e).2 = if isFalseFrame e then 1 else 0 := by
  cases e with
  | frame sid uid cid b =>
    cases b <;>
      simp [typingStep, typingHandler, countTypingFalse, isTypingFalseEvent, isFalseFrame]
  | elapse ms => simp [typingStep, countTypingFalse, isFalseFrame]

/-- C5 counterexample: after a typing = true frame, letting the expiry
deadline elapse with no further frame produces NO negative broadcast from the
server -- socketHandler.js keeps no typing state and registers no timer, so
the server never emits an isTyping = false frame of its own on expiry. -/
theorem typing_no_expiry_broadcast :
    countTypingFalse (runTyping stBase
      [TypingEvent.frame "a" "u" "c" true, TypingEvent.elapse 5000]).2 = 0 ∧
    ¬ countTypingFalse (runTyping stBase
      [TypingEvent.frame "a" "u" "c" true, TypingEvent.elapse 5000]).2 = 1 := by
  refine ⟨by decide, by decide⟩

/-- C5 amended: the server holds no typing state and no expiry timer; each
typing frame is relayed verbatim, so over every stimulus sequence the number
of negative (isTyping = false) broadcasts equals the number of explicit
isTyping = false frames received -- in particular a true frame followed by an
explicit false frame yields exactly one negative broadcast, while the mere
elapse of time yields none. -/
theorem typing_false_broadcast_count (evs : List TypingEvent) : ∀ st : ServerState,
    countTypingFalse (runTyping st evs).2 = (evs.filter isFalseFrame).length := by
  induction evs with
  | nil => intro st; simp [runTyping, countTypingFalse]
  | cons e rest ih =>
    intro st
    simp only [runTyping, countTypingFalse_append, ih (typingStep st e).1,
      countTypingFalse_typingStep, List.filter_cons]
    cases he : isFalseFrame e <;> simp [Nat.add_comm]

/-- C6 counterexample: user "u" owns sockets "a" and "b", both members of
room "c"; a typing frame sent from socket "a" is delivered to socket "b",
which belongs to the typing user: `socket.to(chatId)` excludes only the
sending socket, not the typing user's other connections. -/
theorem typing_reaches_own_other_connection :
    (typingHandler stBase "a" "u" "c" true).2 =
      [OutEvent.toRoomExceptSender "c" "a" (Frame.userTyping "u" true)] ∧
    deliverTo stBase (OutEvent.toRoomExceptSender "c" "a" (Frame.userTyping "u" true)) =
      ["b", "d"] ∧
    ownerOf stBase "b" = some "u" := by
  refine ⟨by decide, by decide, by decide⟩

/-- C6 amended: the `userTyping` broadcast excludes exactly the one
connection that sent the typing frame: it is delivered to every other member
of the room, including any other connections of the typing user. -/
theorem typing_excludes_only_sending_connection (st : ServerState)
    (sid uid cid : String) (b : Bool) :
    (typingHandler st sid uid cid b).2 =
      [OutEvent.toRoomExceptSender cid sid (Frame.userTyping uid b)] ∧
    deliverTo st (OutEvent.toRoomExceptSender cid sid (Frame.userTyping uid b)) =
      (roomMembers st.rooms cid).filter (fun s => s != sid) ∧
    sid ∉ deliverTo st (OutEvent.toRoomExceptSender cid sid (Frame.userTyping uid b)) := by
  refine ⟨rfl, rfl, ?_⟩
  intro h
  simp [deliverTo, List.mem_filter] at h

/-- C3: when the sending identity is not a participant of any chat with the
target id, sendMessage leaves the state untouched -- no message persisted, no
chat metadata update -- and emits exactly one error frame, `Chat not found`,
addressed to the sender's socket only; in particular no newMessage broadcast
is produced. -/
theorem send_nonparticipant_rejected (st : ServerState)
    (socketId userId chatId content messageType : String) (now : Nat) (newId : String)
    (h : ∀ c ∈ st.chats, c.id = chatId → userId ∉ c.participants) :
    sendMessage st socketId userId chatId content messageType now newId =
      (st, [OutEvent.toSocket socketId (Frame.errorFrame "Chat not found")]) := by
  have hf : st.chats.find? (fun c => c.id == chatId && c.participants.contains userId)
      = none := by
    rw [List.find?_eq_none]
    intro c hc hit
    rw [Bool.and_eq_true, beq_iff_eq] at hit
    exact h c hc hit.1 (by simpa using hit.2)
  simp only [sendMessage, hf]

/-- Witness for C3 at a concrete input: user "w" is not a participant of the
only stored chat "c". -/
theorem send_nonparticipant_rejected_witness :
    sendMessage stBase "a" "w" "c" "hi" "text" 7 "m1" =
      (stBase, [OutEvent.toSocket "a" (Frame.errorFrame "Chat not found")]) :=
  send_nonparticipant_rejected stBase "a" "w" "c" "hi" "text" 7 "m1" (by decide)

/-- C4 counterexample: a send request with EMPTY content from a sender who is
not a participant of the target chat is rejected with the NotFound frame
`Chat not found`, not with the validation-failure frame: socketHandler.js
runs the participant lookup before the message document is ever validated,
so not every empty-content send yields a validation rejection. -/
theorem empty_content_rejected_as_not_found :
    (sendMessage stBase "a" "w" "c" "" "text" 7 "m1").2 =
      [OutEvent.toSocket "a" (Frame.errorFrame "Chat not found")] ∧
    ¬ (sendMessage stBase "a" "w" "c" "" "text" 7 "m1").2 =
      [OutEvent.toSocket "a" (Frame.errorFrame "Failed to send message")] := by
  refine ⟨by decide, by decide⟩

/-- C4 amended: for a sender who IS a participant of the target chat, a send
whose content is empty or longer than 1000 characters, or whose type is not
one of text/image/file, is rejected -- the save fails, the sender alone
receives the error frame `Failed to send message`, and no message is
persisted, no chat metadata updated, nothing broadcast. -/
theorem send_invalid_rejected (st : ServerState)
    (socketId userId chatId content messageType : String) (now : Nat) (newId : String)
    (chat : Chat)
    (h1 : st.chats.find? (fun c => c.id == chatId && c.participants.contains userId)
      = some chat)
    (h2 : content = "" ∨ maxMessageLength < content.length ∨
      messageTypes.contains messageType = false) :
    sendMessage st socketId userId chatId content messageType now newId =
      (st, [OutEvent.toSocket socketId (Frame.errorFrame "Failed to send message")]) := by
  have hv : validMessage content messageType = false := by
    rcases h2 with h2 | h2 | h2
    · subst h2; simp [validMessage]
    · have hd : decide (content.length ≤ maxMessageLength) = false :=
        decide_eq_false (Nat.not_le.mpr h2)
      simp [validMessage, hd]
    · have h2m : messageType ∉ messageTypes := by simpa using h2
      simp [validMessage, h2m]
  simp only [sendMessage, h1]
  rw [hv]
  simp

/-- Witness for the amended C4 at a concrete input: participant "u" sends
empty content into chat "c". -/
theorem send_invalid_rejected_witness :
    sendMessage stBase "a" "u" "c" "" "text" 7 "m1" =
      (stBase, [OutEvent.toSocket "a" (Frame.errorFrame "Failed to send message")]) :=
  send_invalid_rejected stBase "a" "u" "c" "" "text" 7 "m1" chatC (by decide) (Or.inl rfl)

/-- C7: a successful send appends to the store exactly one new message whose
readBy holds exactly the single entry {sender, now} -- the sender implicitly
reads their own message at send time and nobody else appears in readBy at
creation. -/
theorem send_readBy_sender_only (st : ServerState)
    (socketId userId chatId content messageType : String) (now : Nat) (newId : String)
    (chat : Chat)
    (h1 : st.chats.find? (fun c => c.id == chatId && c.participants.contains userId)
      = some chat)
    (h2 : validMessage content messageType = true) :
    (sendMessage st socketId userId chatId content messageType now newId).1.messages =
      st.messages ++ [newMessageDoc chatId userId content messageType now newId] ∧
    (newMessageDoc chatId userId content messageType now newId).readBy =
      [⟨userId, now⟩] := by
  constructor
  · simp only [sendMessage, h1]
    rw [h2]
    simp
  · rfl

/-- Witness for C7 at a concrete input: participant "u" successfully sends
"hi" into chat "c". -/
theorem send_readBy_sender_only_witness :
    (sendMessage stBase "a" "u" "c" "hi" "text" 7 "m1").1.messages =
      stBase.messages ++ [newMessageDoc "c" "u" "hi" "text" 7 "m1"] ∧
    (newMessageDoc "c" "u" "hi" "text" 7 "m1").readBy = [⟨"u", 7⟩] :=
  send_readBy_sender_only stBase "a" "u" "c" "hi" "text" 7 "m1" chatC (by decide) (by decide)

/-- C8: on a successful send the only emitted event is one newMessage frame
addressed to the whole room via io.to, and its recipient set is exactly the
room's current member list -- every subscribed connection receives it, the
sender's own connections included. -/
theorem send_broadcast_room_members (st : ServerState)
    (socketId userId chatId content messageType : String) (now : Nat) (newId : String)
    (chat : Chat)
    (h1 : st.chats.find? (fun c => c.id == chatId && c.participants.contains userId)
      = some chat)
    (h2 : validMessage content messageType = true) :
    (sendMessage st socketId userId chatId content messageType now newId).2 =
      [OutEvent.toRoom chatId
        (Frame.newMessage (newMessageDoc chatId userId content messageType now newId))] ∧
    deliverTo (sendMessage st socketId userId chatId content messageType now newId).1
      (OutEvent.toRoom chatId
        (Frame.newMessage (newMessageDoc chatId userId content messageType now newId))) =
      roomMembers st.rooms chatId := by
  constructor
  · simp only [sendMessage, h1]
    rw [h2]
    simp
  · simp only [deliverTo, sendMessage, h1]
    rw [h2]
    simp

/-- Witness for C8 at a concrete input: the successful send of "hi" into chat
"c" is broadcast to the room members "a", "b", "d" -- including "a" and "b",
the sender's own sockets. -/
theorem send_broadcast_room_members_witness :
    (sendMessage stBase "a" "u" "c" "hi" "text" 7 "m1").2 =
      [OutEvent.toRoom "c" (Frame.newMessage (newMessageDoc "c" "u" "hi" "text" 7 "m1"))] ∧
    deliverTo (sendMessage stBase "a" "u" "c" "hi" "text" 7 "m1").1
      (OutEvent.toRoom "c" (Frame.newMessage (newMessageDoc "c" "u" "hi" "text" 7 "m1"))) =
      roomMembers stBase.rooms "c" :=
  send_broadcast_room_members stBase "a" "u" "c" "hi" "text" 7 "m1" chatC
    (by decide) (by decide)

theorem mem_roomJoin (rooms : List (String × List String)) (cid sid : String) :
    sid ∈ roomMembers (roomJoin rooms cid sid) cid := by
  induction rooms with
  | nil => simp [roomJoin, roomMembers, List.find?]
  | cons p rest ih =>
    by_cases h : p.1 == cid
    · by_cases hc : p.2.contains sid
      · simp only [roomJoin, if_pos h, if_pos hc, roomMembers, List.find?, h]
        simpa using hc
      · simp only [roomJoin, if_pos h, if_neg hc, roomMembers, List.find?, h]
        simp
    · simpa only [roomJoin, if_neg h, roomMembers, List.find?, h] using ih

/-- C9: joinChat adds the socket to the requested room unconditionally -- the
handler consults neither the chat collection nor any participant list, leaves
the stored chats and messages untouched, and afterwards every broadcast
addressed to that room is delivered to the newly joined socket. -/
theorem joinChat_unconditional (st : ServerState) (sid cid : String) :
    sid ∈ roomMembers (joinChat st sid cid).rooms cid ∧
    (joinChat st sid cid).chats = st.chats ∧
    (joinChat st sid cid).messages = st.messages ∧
    ∀ f : Frame, sid ∈ deliverTo (joinChat st sid cid) (OutEvent.toRoom cid f) :=
  ⟨mem_roomJoin st.rooms cid sid, rfl, rfl, fun _ => mem_roomJoin st.rooms cid sid⟩

theorem markAsRead_fst (st : ServerState) (sid uid mid cid : String) (now : Nat) :
    (markAsRead st sid uid mid cid now).1 =
      { st with messages := st.messages.map (fun m =>
        if m.id == mid then
          { m with readBy := addToSetReadBy m.readBy ⟨uid, now⟩ }
        else m) } := rfl

/-- C10: every markAsRead invocation emits exactly one messageRead frame
(carrying the fresh readAt timestamp) to the room excluding the invoking
socket -- no existence or membership check precedes the broadcast -- and when
no stored message has the given id, the storage update is a no-op and the
state is completely unchanged, yet the broadcast still happens. -/
theorem markRead_always_broadcasts (st : ServerState)
    (socketId userId messageId chatId : String) (now : Nat) :
    (markAsRead st socketId userId messageId chatId now).2 =
      [OutEvent.toRoomExceptSender chatId socketId
        (Frame.messageRead messageId userId now)] ∧
    socketId ∉ deliverTo (markAsRead st socketId userId messageId chatId now).1
      (OutEvent.toRoomExceptSender chatId socketId
        (Frame.messageRead messageId userId now)) ∧
    ((∀ m ∈ st.messages, ¬ m.id = messageId) →
      (markAsRead st socketId userId messageId chatId now).1 = st) := by
  refine ⟨rfl, ?_, ?_⟩
  · intro h
    simp [deliverTo, List.mem_filter] at h
  · intro h
    have hmap : st.messages.map (fun m =>
        if m.id == messageId then
          { m with readBy := addToSetReadBy m.readBy ⟨userId, now⟩ }
        else m) = st.messages := by
      calc st.messages.map (fun m =>
            if m.id == messageId then
              { m with readBy := addToSetReadBy m.readBy ⟨userId, now⟩ }
            else m)
          = st.messages.map id := by
            apply List.map_congr_left
            intro m hm
            simp [beq_iff_eq, h m hm]
        _ = st.messages := List.map_id _
    rw [markAsRead_fst, hmap]

/-- Witness for C10 at a concrete input: with no stored messages at all, a
markAsRead for the unknown message id "m" changes nothing but still emits the
messageRead broadcast. -/
theorem markRead_always_broadcasts_witness :
    (markAsRead stBase "a" "u" "m" "c" 5).1 = stBase ∧
    (markAsRead stBase "a" "u" "m" "c" 5).2 =
      [OutEvent.toRoomExceptSender "c" "a" (Frame.messageRead "m" "u" 5)] :=
  ⟨(markRead_always_broadcasts stBase "a" "u" "m" "c" 5).2.2 (by decide),
   (markRead_always_broadcasts stBase "a" "u" "m" "c" 5).1⟩

end Chatify
